import Mathlib

/-!
# Verification of `pkg/minikube/machine/machine.go`

A shallow embedding of the Go package `machine` (file `machine.go`):
`Machine.IsValid`, `LoadMachine`, `provisionDockerMachine`,
`fastDetectProvisioner` and `saveHost`.

Conventions of the embedding.

* A Go pointer or interface value that may be `nil` is an `Option`.
* A Go function runs in the monad `Go`: it threads the chronological list of
  calls made on external collaborators (`Event`) and ends either with a normal
  return or with a runtime panic (a nil dereference or a method call on a nil
  interface).
* A Go result `(T, error)` is a pair whose second component is `none` for a
  `nil` error.
* Interface values of the libmachine library (`drivers.Driver`,
  `libmachine.API`, `libprovision.Provisioner`) are records holding the
  answers of the methods this package calls.
* Package-level functions defined in other files (`driver.IsKIC`,
  `driver.BareMetal`, `provision.NewUbuntuProvisioner`, ...) are fields of the
  environment `Env`.
-/

namespace machine

/-! ## Errors (`github.com/pkg/errors`) -/

/-- Go error values: `New msg` is `errors.New(msg)` (also any error produced by a
collaborator), `Wrap cause msg` is `errors.Wrap(cause, msg)` for a non-nil cause. -/
inductive GoError where
  | New (msg : String)
  | Wrap (cause : GoError) (msg : String)
  deriving DecidableEq, Repr

/-- The method `Error()`: wrapping puts the context before the message of the cause. -/
def GoError.Error : GoError → String
  | .New msg => msg
  | .Wrap cause msg => msg ++ ": " ++ cause.Error

/-- The function `errors.Cause`: the innermost error of a chain of wraps. -/
def GoError.Cause : GoError → GoError
  | .New msg => .New msg
  | .Wrap cause _ => cause.Cause

/-! ## Data model -/

/-- The struct `swarm.Options`; its contents are never inspected by this package. -/
structure swarm.Options where
  raw : String
  deriving DecidableEq, Repr

/-- The struct `auth.Options`; its contents are never inspected by this package. -/
structure auth.Options where
  raw : String
  deriving DecidableEq, Repr

/-- The struct `engine.Options`; its contents are never inspected by this package. -/
structure engine.Options where
  raw : String
  deriving DecidableEq, Repr

/-- The interface `drivers.Driver`, reduced to the two methods used here:
`DriverName() string` and `GetIP() (string, error)`. -/
structure drivers.Driver where
  DriverName : String
  GetIP : String × Option GoError
  deriving DecidableEq, Repr

/-- The struct `host.Options`: the three sub-bundles are pointers. -/
structure host.Options where
  SwarmOptions : Option swarm.Options
  AuthOptions : Option auth.Options
  EngineOptions : Option engine.Options
  deriving DecidableEq, Repr

/-- The struct `host.Host`, with the fields this package reads. `Driver` is an
interface value, `HostOptions` a pointer and `RawDriver` a byte slice, all of
which may be nil. -/
structure host.Host where
  Name : String
  Driver : Option drivers.Driver
  HostOptions : Option host.Options
  RawDriver : Option (List Nat)
  deriving DecidableEq, Repr

/-- The struct `Machine`: it embeds a `*host.Host`. -/
structure Machine where
  Host : Option host.Host
  deriving DecidableEq, Repr

/-- Modelled from the spec: the struct `config.Node` is declared in package
`config`; the spec says a node "holds a mutable IP field". The other fields,
never touched by this package, are kept in `rest`. -/
structure config.Node where
  IP : String
  rest : String
  deriving DecidableEq, Repr

/-- Modelled from the spec: the struct `config.ClusterConfig` is declared in
package `config` and is only passed on to `config.SaveNode`. -/
structure config.ClusterConfig where
  raw : String
  deriving DecidableEq, Repr

/-- The interface `libmachine.API`, reduced to the method `Save(*host.Host) error`. -/
structure libmachine.API where
  Save : Option host.Host → Option GoError

/-- The interface `libprovision.Provisioner`, reduced to the method
`Provision(swarm.Options, auth.Options, engine.Options) error`. -/
structure libprovision.Provisioner where
  Provision : swarm.Options → auth.Options → engine.Options → Option GoError

/-! ## Execution model -/

/-- One call on an external collaborator, with its arguments. -/
inductive Event where
  | glogInfof (format : String)
  | fmtPrintf (out : String)
  | NewAPIClient
  | LoadHost (api : Option libmachine.API) (name : String)
  | DriverName (d : drivers.Driver)
  | NewUbuntuProvisioner (d : drivers.Driver)
  | NewBuildrootProvisioner (d : drivers.Driver)
  | DetectProvisioner (d : drivers.Driver)
  | Provision (p : libprovision.Provisioner) (s : swarm.Options) (a : auth.Options)
      (e : engine.Options)
  | Save (api : libmachine.API) (h : Option host.Host)
  | GetIP (d : drivers.Driver)
  | SaveNode (cfg : Option config.ClusterConfig) (n : config.Node)

/-- How a Go function ends: a normal return, or a runtime panic. -/
inductive Outcome (α : Type) where
  | ret (a : α)
  | panicked

/-- A Go computation: from the calls made so far to an outcome and the calls made
up to the end. -/
def Go (α : Type) : Type := List Event → Outcome α × List Event

/-- Normal return of a value, no call made. -/
def Go.pure {α : Type} (a : α) : Go α := fun t => (.ret a, t)

/-- Sequencing: a panic stops the computation. -/
def Go.bind {α β : Type} (m : Go α) (f : α → Go β) : Go β := fun t =>
  match m t with
  | (.ret a, t1) => f a t1
  | (.panicked, t1) => (.panicked, t1)

instance : Monad Go where
  pure := Go.pure
  bind := Go.bind

/-- Record one call on a collaborator. -/
def emit (e : Event) : Go Unit := fun t => (.ret (), t ++ [e])

/-- A runtime panic. -/
def nilPanic {α : Type} : Go α := fun t => (.panicked, t)

/-- Dereference of a pointer, or method call on an interface value: panics on nil. -/
def deref {α : Type} : Option α → Go α
  | some a => Go.pure a
  | none => nilPanic

/-- A `defer` statement: the deferred call runs when the body ends, by a return or
by a panic, and the outcome of the body is kept. -/
def withDefer {α : Type} (deferred : Go Unit) (body : Go α) : Go α := fun t =>
  match body t with
  | (o, t1) =>
    match deferred t1 with
    | (.ret _, t2) => (o, t2)
    | (.panicked, t2) => (.panicked, t2)

/-- Functions of other packages and other files that `machine.go` calls. -/
structure Env where
  /-- The function `driver.IsKIC`. -/
  IsKIC : String → Bool
  /-- The function `driver.BareMetal`. -/
  BareMetal : String → Bool
  /-- The function `provision.NewUbuntuProvisioner`. -/
  NewUbuntuProvisioner : drivers.Driver → libprovision.Provisioner
  /-- The function `provision.NewBuildrootProvisioner`. -/
  NewBuildrootProvisioner : drivers.Driver → libprovision.Provisioner
  /-- The function `libprovision.DetectProvisioner`. -/
  DetectProvisioner : drivers.Driver → Option libprovision.Provisioner × Option GoError
  /-- The function `NewAPIClient` of this package. -/
  NewAPIClient : Option libmachine.API × Option GoError
  /-- The function `LoadHost` of this package. -/
  LoadHost : Option libmachine.API → String → Option host.Host × Option GoError
  /-- The function `config.SaveNode`. -/
  SaveNode : Option config.ClusterConfig → config.Node → Option GoError

/-! ## The functions of `machine.go` -/

/-- The method `(*Machine).IsValid` (lines 38-64). -/
def Machine.IsValid (h : Option Machine) : Go Bool := do
  if h.isNone then
    return false
  let m ← deref h
  if m.Host.isNone then
    return false
  let hh ← deref m.Host
  if hh.Name == "" then
    return false
  if hh.Driver.isNone then
    return false
  if hh.HostOptions.isNone then
    return false
  if hh.RawDriver.isNone then
    return false
  return true

/-- The function `LoadMachine` (lines 66-85). -/
def LoadMachine (env : Env) (name : String) : Go (Option Machine × Option GoError) := do
  emit .NewAPIClient
  let (api, err) := env.NewAPIClient
  if err.isSome then
    return (none, err)
  emit (.LoadHost api name)
  let (h, err) := env.LoadHost api name
  if err.isSome then
    return (none, err)
  if h.isSome then
    return (some { Host := h }, none)
  else
    return (none, some (GoError.New "host is nil"))

/-- The function `fastDetectProvisioner` (lines 102-113). -/
def fastDetectProvisioner (env : Env) (h : Option host.Host) :
    Go (Option libprovision.Provisioner × Option GoError) := do
  let hh ← deref h
  let drv ← deref hh.Driver
  emit (.DriverName drv)
  let d := drv.DriverName
  if env.IsKIC d then
    emit (.NewUbuntuProvisioner drv)
    return (some (env.NewUbuntuProvisioner drv), none)
  else if env.BareMetal d then
    emit (.DetectProvisioner drv)
    return env.DetectProvisioner drv
  else
    emit (.NewBuildrootProvisioner drv)
    return (some (env.NewBuildrootProvisioner drv), none)

/-- The function `provisionDockerMachine` (lines 87-100). The two log lines are
recorded by their format string; the elapsed time is not modelled. -/
def provisionDockerMachine (env : Env) (h : Option host.Host) : Go (Option GoError) := do
  emit (.glogInfof "provisioning docker machine ...")
  withDefer (emit (.glogInfof "provisioned docker machine in %s")) do
    let (p, err) ← fastDetectProvisioner env h
    match err with
    | some e => return some (GoError.Wrap e "fast detect")
    | none =>
      let hh ← deref h
      let opts ← deref hh.HostOptions
      let s ← deref opts.SwarmOptions
      let a ← deref opts.AuthOptions
      let e ← deref opts.EngineOptions
      let pp ← deref p
      emit (.Provision pp s a e)
      return pp.Provision s a e

/-- The function `saveHost` (lines 115-128). The node `n` points to is passed in
and its final state is returned next to the error. -/
def saveHost (env : Env) (api : Option libmachine.API) (h : Option host.Host)
    (cfg : Option config.ClusterConfig) (n : Option config.Node) :
    Go (Option config.Node × Option GoError) := do
  let a ← deref api
  emit (.Save a h)
  match a.Save h with
  | some err => return (n, some (GoError.Wrap err "save"))
  | none =>
    let hh ← deref h
    let drv ← deref hh.Driver
    emit (.GetIP drv)
    let (ip, err) := drv.GetIP
    if err.isSome then
      return (n, err)
    let node ← deref n
    let node1 : config.Node := { node with IP := ip }
    emit (.fmtPrintf ("SAVING NEW IP HERE: " ++ ip ++ "\n"))
    emit (.SaveNode cfg node1)
    return (some node1, env.SaveNode cfg node1)


/-! ## Observations on histories -/

/-- Whether an event is a call of `libprovision.DetectProvisioner`. -/
def Event.isDetectProvisioner : Event → Bool
  | .DetectProvisioner _ => true
  | _ => false

/-- Whether an event is a call of one of the two fixed constructors,
`provision.NewUbuntuProvisioner` or `provision.NewBuildrootProvisioner`. -/
def Event.isFixedProvisioner : Event → Bool
  | .NewUbuntuProvisioner _ => true
  | .NewBuildrootProvisioner _ => true
  | _ => false

/-- Whether an event is a call of the method `Provision`. -/
def Event.isProvision : Event → Bool
  | .Provision _ _ _ _ => true
  | _ => false

/-- Whether an event is a call of the method `GetIP`. -/
def Event.isGetIP : Event → Bool
  | .GetIP _ => true
  | _ => false

/-- Whether an event is a call of `config.SaveNode`. -/
def Event.isSaveNode : Event → Bool
  | .SaveNode _ _ => true
  | _ => false

/-- Number of events of a history that satisfy `p`. -/
def calls (p : Event → Bool) (t : List Event) : Nat := (t.filter p).length

/-! ## Sample inputs -/

/-- A host record as a store may hand it back: only the name is filled in. -/
def nameOnlyHost : host.Host :=
  { Name := "minikube", Driver := none, HostOptions := none, RawDriver := none }

/-- An environment in which the two classifications are disjoint: `docker` and
`podman` are container-backed, `none` and `mock` are bare-metal, detection fails. -/
def sampleEnv : Env where
  IsKIC := fun d => d == "docker" || d == "podman"
  BareMetal := fun d => d == "none" || d == "mock"
  NewUbuntuProvisioner := fun _ => { Provision := fun _ _ _ => none }
  NewBuildrootProvisioner := fun _ => { Provision := fun _ _ _ => some (.New "buildroot") }
  DetectProvisioner := fun _ => (none, some (.New "no matching provisioner"))
  NewAPIClient := (some { Save := fun _ => none }, none)
  LoadHost := fun _ name =>
    if name == "minikube" then (some nameOnlyHost, none)
    else if name == "" then (none, none)
    else (none, some (.New "machine does not exist"))
  SaveNode := fun _ _ => none

/-- An environment in which `docker` satisfies both classifications. -/
def overlapEnv : Env :=
  { sampleEnv with BareMetal := fun d => d == "none" || d == "docker" }

/-- A driver with the given identifier that knows its address. -/
def sampleDriver (name : String) : drivers.Driver :=
  { DriverName := name, GetIP := ("192.168.49.2", none) }

/-- A driver whose `GetIP` fails. -/
def noIPDriver : drivers.Driver :=
  { DriverName := "docker", GetIP := ("", some (.New "IP not found")) }

/-- A complete options bundle. -/
def sampleOptions : host.Options :=
  { SwarmOptions := some ⟨"swarm"⟩, AuthOptions := some ⟨"auth"⟩,
    EngineOptions := some ⟨"engine"⟩ }

/-- A fully populated host record on the given driver identifier. -/
def sampleHost (name : String) : host.Host :=
  { Name := "minikube", Driver := some (sampleDriver name),
    HostOptions := some sampleOptions, RawDriver := some [] }

/-- A host record that passes `IsValid` although its options bundle is empty. -/
def bareOptionsHost : host.Host :=
  { Name := "minikube", Driver := some (sampleDriver "docker"),
    HostOptions := some { SwarmOptions := none, AuthOptions := none, EngineOptions := none },
    RawDriver := some [] }

/-- A client whose `Save` succeeds. -/
def okAPI : libmachine.API := { Save := fun _ => none }

/-- A client whose `Save` fails. -/
def failAPI : libmachine.API := { Save := fun _ => some (.New "disk full") }

/-- A node with an address recorded earlier. -/
def sampleNode : config.Node := { IP := "10.0.0.1", rest := "m01" }

/-- The history of a successful `saveHost` on the sample docker host. -/
def sampleSaveTrace : List Event :=
  [Event.Save okAPI (some (sampleHost "docker")), Event.GetIP (sampleDriver "docker"),
    Event.fmtPrintf "SAVING NEW IP HERE: 192.168.49.2\n",
    Event.SaveNode none { IP := "192.168.49.2", rest := "m01" }]

/-! ## Helper lemmas -/

theorem calls_append (p : Event → Bool) (t u : List Event) :
    calls p (t ++ u) = calls p t + calls p u := by
  simp [calls]

/-- The run of `IsValid`: it returns, the history is unchanged, and the answer is
true exactly when all five attributes are present. -/
theorem IsValid_run (h : Option Machine) (t : List Event) :
    ∃ b, Machine.IsValid h t = (.ret b, t) ∧
      (b = true ↔ ∃ m hh d o r, h = some m ∧ m.Host = some hh ∧ hh.Name ≠ "" ∧
        hh.Driver = some d ∧ hh.HostOptions = some o ∧ hh.RawDriver = some r) := by
  rcases h with _ | ⟨⟨_ | ⟨name, drv, opts, raw⟩⟩⟩
  · exact ⟨false, rfl, by simp⟩
  · exact ⟨false, rfl, by simp⟩
  · by_cases hn : name = ""
    · subst hn
      exact ⟨false, rfl, by simp⟩
    · rcases drv with _ | d
      · refine ⟨false, ?_, by simp⟩
        simp [Machine.IsValid, hn, deref, bind, Go.bind, pure, Go.pure]
      · rcases opts with _ | o
        · refine ⟨false, ?_, by simp⟩
          simp [Machine.IsValid, hn, deref, bind, Go.bind, pure, Go.pure]
        · rcases raw with _ | r
          · refine ⟨false, ?_, by simp⟩
            simp [Machine.IsValid, hn, deref, bind, Go.bind, pure, Go.pure]
          · refine ⟨true, ?_, by simp [hn]⟩
            simp [Machine.IsValid, hn, deref, bind, Go.bind, pure, Go.pure]

/-- Selection on a present host with a present driver, as one case split. -/
theorem fastDetectProvisioner_some (env : Env) (hh : host.Host) (drv : drivers.Driver)
    (t : List Event) (hd : hh.Driver = some drv) :
    fastDetectProvisioner env (some hh) t =
      if env.IsKIC drv.DriverName then
        (.ret (some (env.NewUbuntuProvisioner drv), none),
          t ++ [.DriverName drv, .NewUbuntuProvisioner drv])
      else if env.BareMetal drv.DriverName then
        (.ret (env.DetectProvisioner drv), t ++ [.DriverName drv, .DetectProvisioner drv])
      else
        (.ret (some (env.NewBuildrootProvisioner drv), none),
          t ++ [.DriverName drv, .NewBuildrootProvisioner drv]) := by
  by_cases hk : env.IsKIC drv.DriverName = true
  · simp [fastDetectProvisioner, deref, bind, Go.bind, pure, Go.pure, emit, hd, hk]
  · by_cases hb : env.BareMetal drv.DriverName = true
    · simp [fastDetectProvisioner, deref, bind, Go.bind, pure, Go.pure, emit, hd, hk, hb]
    · simp [fastDetectProvisioner, deref, bind, Go.bind, pure, Go.pure, emit, hd, hk, hb]

/-- Selection panics on an absent host. -/
theorem fastDetectProvisioner_nil_host (env : Env) (t : List Event) :
    fastDetectProvisioner env none t = (.panicked, t) := rfl

/-- Selection panics on an absent driver. -/
theorem fastDetectProvisioner_nil_driver (env : Env) (hh : host.Host) (t : List Event)
    (hd : hh.Driver = none) : fastDetectProvisioner env (some hh) t = (.panicked, t) := by
  simp [fastDetectProvisioner, deref, bind, Go.bind, nilPanic, hd, Go.pure]

/-- Selection makes no call of `Provision`. -/
theorem fastDetectProvisioner_calls_provision (env : Env) (h : Option host.Host)
    (t tr : List Event) (o : Outcome (Option libprovision.Provisioner × Option GoError))
    (hrun : fastDetectProvisioner env h t = (o, tr)) :
    calls Event.isProvision tr = calls Event.isProvision t := by
  rcases h with _ | hh
  · rw [fastDetectProvisioner_nil_host] at hrun
    cases hrun; rfl
  · rcases hd : hh.Driver with _ | drv
    · rw [fastDetectProvisioner_nil_driver env hh t hd] at hrun
      cases hrun; rfl
    · rw [fastDetectProvisioner_some env hh drv t hd] at hrun
      split_ifs at hrun <;> cases hrun <;> simp [calls, Event.isProvision]

/-- The provisioning run once selection has returned. -/
theorem provisionDockerMachine_eq (env : Env) (h : Option host.Host) (t : List Event) :
    provisionDockerMachine env h t =
      withDefer (emit (.glogInfof "provisioned docker machine in %s"))
        (Go.bind (fastDetectProvisioner env h) fun r =>
          match r.2 with
          | some e => Go.pure (some (GoError.Wrap e "fast detect"))
          | none =>
            Go.bind (deref h) fun hh =>
            Go.bind (deref hh.HostOptions) fun opts =>
            Go.bind (deref opts.SwarmOptions) fun s =>
            Go.bind (deref opts.AuthOptions) fun a =>
            Go.bind (deref opts.EngineOptions) fun e =>
            Go.bind (deref r.1) fun pp =>
            Go.bind (emit (.Provision pp s a e)) fun _ =>
            Go.pure (pp.Provision s a e))
        (t ++ [.glogInfof "provisioning docker machine ..."]) := by
  simp only [provisionDockerMachine, bind, Go.bind, emit, pure]

/-! ## Claims -/

/-- C1: `IsValid` is total (it returns, without a panic and without any call on a
collaborator, for every receiver, the nil receiver included) and it returns true
exactly when the receiver is present, its host record is present, the name is
non-empty and the driver, the host options and the raw driver are present. -/
theorem IsValid_iff_all_present (h : Option Machine) (t : List Event) :
    ∃ b, Machine.IsValid h t = (.ret b, t) ∧
      (b = true ↔ ∃ m hh d o r, h = some m ∧ m.Host = some hh ∧ hh.Name ≠ "" ∧
        hh.Driver = some d ∧ hh.HostOptions = some o ∧ hh.RawDriver = some r) :=
  IsValid_run h t

/-- C3: on a host whose driver identifier is container-backed, selection returns
the Ubuntu provisioner built on the host's driver with a nil error, and the only
calls made are `DriverName` and `NewUbuntuProvisioner`: remote detection is not
invoked. Nothing is assumed on `BareMetal`, so the container rule wins. -/
theorem fastDetectProvisioner_kic (env : Env) (hh : host.Host) (drv : drivers.Driver)
    (t : List Event) (hd : hh.Driver = some drv) (hk : env.IsKIC drv.DriverName = true) :
    ∃ tr, fastDetectProvisioner env (some hh) t =
        (.ret (some (env.NewUbuntuProvisioner drv), none), tr) ∧
      tr = t ++ [.DriverName drv, .NewUbuntuProvisioner drv] ∧
      calls Event.isDetectProvisioner tr = calls Event.isDetectProvisioner t := by
  refine ⟨_, ?_, rfl, ?_⟩
  · rw [fastDetectProvisioner_some env hh drv t hd, if_pos hk]
  · simp [calls, Event.isDetectProvisioner]

/-- Witness of C3 on an identifier that is container-backed and bare-metal at once. -/
theorem fastDetectProvisioner_kic_witness :
    overlapEnv.IsKIC "docker" = true ∧ overlapEnv.BareMetal "docker" = true ∧
    ∃ tr, fastDetectProvisioner overlapEnv (some (sampleHost "docker")) [] =
        (.ret (some (overlapEnv.NewUbuntuProvisioner (sampleDriver "docker")), none), tr) ∧
      tr = [] ++ [.DriverName (sampleDriver "docker"),
        .NewUbuntuProvisioner (sampleDriver "docker")] ∧
      calls Event.isDetectProvisioner tr = calls Event.isDetectProvisioner [] :=
  ⟨rfl, rfl,
    fastDetectProvisioner_kic overlapEnv (sampleHost "docker") (sampleDriver "docker") []
      rfl rfl⟩

/-- C4: on a host whose driver identifier is classified as bare-metal, that is,
one that reaches the second case of the switch (`IsKIC` is false and `BareMetal`
is true), selection returns exactly what `DetectProvisioner` answers on the
host's driver (the detected provisioner, or the detection error), it calls
detection once and it calls neither fixed constructor, so neither the Ubuntu nor
the Buildroot strategy is built. -/
theorem fastDetectProvisioner_bare_metal (env : Env) (hh : host.Host) (drv : drivers.Driver)
    (t : List Event) (hd : hh.Driver = some drv) (hk : env.IsKIC drv.DriverName = false)
    (hb : env.BareMetal drv.DriverName = true) :
    ∃ tr, fastDetectProvisioner env (some hh) t = (.ret (env.DetectProvisioner drv), tr) ∧
      tr = t ++ [.DriverName drv, .DetectProvisioner drv] ∧
      calls Event.isDetectProvisioner tr = calls Event.isDetectProvisioner t + 1 ∧
      calls Event.isFixedProvisioner tr = calls Event.isFixedProvisioner t := by
  refine ⟨_, ?_, rfl, ?_, ?_⟩
  · rw [fastDetectProvisioner_some env hh drv t hd]
    simp [hk, hb]
  · simp [calls, Event.isDetectProvisioner]
  · simp [calls, Event.isFixedProvisioner]

/-- Witness of C4 on the identifier `none`. -/
theorem fastDetectProvisioner_bare_metal_witness :
    sampleEnv.IsKIC "none" = false ∧ sampleEnv.BareMetal "none" = true ∧
    ∃ tr, fastDetectProvisioner sampleEnv (some (sampleHost "none")) [] =
        (.ret (sampleEnv.DetectProvisioner (sampleDriver "none")), tr) ∧
      tr = [] ++ [.DriverName (sampleDriver "none"),
        .DetectProvisioner (sampleDriver "none")] ∧
      calls Event.isDetectProvisioner tr = calls Event.isDetectProvisioner [] + 1 ∧
      calls Event.isFixedProvisioner tr = calls Event.isFixedProvisioner [] :=
  ⟨rfl, rfl,
    fastDetectProvisioner_bare_metal sampleEnv (sampleHost "none") (sampleDriver "none") []
      rfl rfl rfl⟩

/-- C5: on a host whose driver identifier is neither container-backed nor
bare-metal, selection returns the Buildroot provisioner built on the host's
driver with a nil error; and whenever selection returns an error, the identifier
is not container-backed, it is bare-metal, and the error is the one detection
answered. -/
theorem fastDetectProvisioner_fallback_and_errors (env : Env) :
    (∀ (hh : host.Host) (drv : drivers.Driver) (t : List Event),
      hh.Driver = some drv → env.IsKIC drv.DriverName = false →
      env.BareMetal drv.DriverName = false →
      fastDetectProvisioner env (some hh) t =
        (.ret (some (env.NewBuildrootProvisioner drv), none),
          t ++ [.DriverName drv, .NewBuildrootProvisioner drv])) ∧
    (∀ (h : Option host.Host) (t tr : List Event) (p : Option libprovision.Provisioner)
      (e : GoError), fastDetectProvisioner env h t = (.ret (p, some e), tr) →
      ∃ hh drv, h = some hh ∧ hh.Driver = some drv ∧ env.IsKIC drv.DriverName = false ∧
        env.BareMetal drv.DriverName = true ∧ env.DetectProvisioner drv = (p, some e)) := by
  constructor
  · intro hh drv t hd hk hb
    rw [fastDetectProvisioner_some env hh drv t hd]
    simp [hk, hb]
  · intro h t tr p e hrun
    rcases h with _ | hh
    · rw [fastDetectProvisioner_nil_host] at hrun
      cases hrun
    · rcases hd : hh.Driver with _ | drv
      · rw [fastDetectProvisioner_nil_driver env hh t hd] at hrun
        cases hrun
      · rw [fastDetectProvisioner_some env hh drv t hd] at hrun
        refine ⟨hh, drv, rfl, hd, ?_⟩
        by_cases hk : env.IsKIC drv.DriverName = true
        · rw [if_pos hk] at hrun
          cases hrun
        · by_cases hb : env.BareMetal drv.DriverName = true
          · rw [if_neg hk, if_pos hb] at hrun
            refine ⟨by simpa using hk, hb, ?_⟩
            injection hrun with h1 _
            injection h1
          · rw [if_neg hk, if_neg hb] at hrun
            cases hrun

/-- Witness of C5: `virtualbox` takes the fallback path, and the error returned
on `none` comes from failed detection. -/
theorem fastDetectProvisioner_fallback_and_errors_witness :
    fastDetectProvisioner sampleEnv (some (sampleHost "virtualbox")) [] =
      (.ret (some (sampleEnv.NewBuildrootProvisioner (sampleDriver "virtualbox")), none),
        [] ++ [.DriverName (sampleDriver "virtualbox"),
          .NewBuildrootProvisioner (sampleDriver "virtualbox")]) ∧
    ∃ hh drv, some (sampleHost "none") = some hh ∧ hh.Driver = some drv ∧
      sampleEnv.IsKIC drv.DriverName = false ∧ sampleEnv.BareMetal drv.DriverName = true ∧
      sampleEnv.DetectProvisioner drv = (none, some (.New "no matching provisioner")) :=
  ⟨(fastDetectProvisioner_fallback_and_errors sampleEnv).1 (sampleHost "virtualbox")
      (sampleDriver "virtualbox") [] rfl rfl rfl,
    (fastDetectProvisioner_fallback_and_errors sampleEnv).2 (some (sampleHost "none")) []
      [.DriverName (sampleDriver "none"), .DetectProvisioner (sampleDriver "none")]
      none (.New "no matching provisioner") rfl⟩

/-- C6: whenever `saveHost` returns with a nil error, the host and its driver
were present, `GetIP` was called on that driver during the call and answered an
address `ip` with a nil error, and the node after the call is the node before the
call with its `IP` field set to `ip`. -/
theorem saveHost_ok_records_ip (env : Env) (api : Option libmachine.API)
    (h : Option host.Host) (cfg : Option config.ClusterConfig)
    (n n1 : Option config.Node) (t tr : List Event)
    (hrun : saveHost env api h cfg n t = (.ret (n1, none), tr)) :
    ∃ a hh drv node ip, api = some a ∧ h = some hh ∧ hh.Driver = some drv ∧
      n = some node ∧ drv.GetIP = (ip, none) ∧
      n1 = some { node with IP := ip } ∧ n1.map config.Node.IP = some ip ∧
      tr = t ++ [.Save a h, .GetIP drv, .fmtPrintf ("SAVING NEW IP HERE: " ++ ip ++ "\n"),
        .SaveNode cfg { node with IP := ip }] := by
  rcases api with _ | a
  · cases hrun
  · rcases hs : a.Save h with _ | e
    · rcases h with _ | hh
      · simp [saveHost, deref, bind, Go.bind, pure, Go.pure, emit, hs, nilPanic] at hrun
      · rcases hd : hh.Driver with _ | drv
        · simp [saveHost, deref, bind, Go.bind, pure, Go.pure, emit, hs, hd, nilPanic] at hrun
        · rcases hip : drv.GetIP with ⟨ip, err⟩
          rcases err with _ | e
          · rcases n with _ | node
            · simp [saveHost, deref, bind, Go.bind, pure, Go.pure, emit, hs, hd, hip,
                nilPanic] at hrun
            · simp [saveHost, deref, bind, Go.bind, pure, Go.pure, emit, hs, hd, hip] at hrun
              obtain ⟨⟨h1, _⟩, h2⟩ := hrun
              refine ⟨a, hh, drv, node, ip, rfl, rfl, hd, rfl, hip, h1.symm, ?_, h2.symm⟩
              rw [← h1]
              rfl
          · simp [saveHost, deref, bind, Go.bind, pure, Go.pure, emit, hs, hd, hip] at hrun
    · simp [saveHost, deref, bind, Go.bind, pure, Go.pure, emit, hs] at hrun

/-- Witness of C6: a docker host saved through a working client. -/
theorem saveHost_ok_records_ip_witness :
    saveHost sampleEnv (some okAPI) (some (sampleHost "docker")) none (some sampleNode) [] =
      (.ret (some { IP := "192.168.49.2", rest := "m01" }, none), sampleSaveTrace) ∧
    ∃ a hh drv node ip, some okAPI = some a ∧ some (sampleHost "docker") = some hh ∧
      hh.Driver = some drv ∧ some sampleNode = some node ∧ drv.GetIP = (ip, none) ∧
      (some { IP := "192.168.49.2", rest := "m01" } : Option config.Node) =
        some { node with IP := ip } ∧
      (some { IP := "192.168.49.2", rest := "m01" } : Option config.Node).map
        config.Node.IP = some ip ∧
      sampleSaveTrace =
        [] ++ [Event.Save a (some (sampleHost "docker")), Event.GetIP drv,
          Event.fmtPrintf ("SAVING NEW IP HERE: " ++ ip ++ "\n"),
          Event.SaveNode none { node with IP := ip }] :=
  ⟨rfl, saveHost_ok_records_ip sampleEnv (some okAPI) (some (sampleHost "docker")) none
    (some sampleNode) (some { IP := "192.168.49.2", rest := "m01" }) [] sampleSaveTrace rfl⟩

/-- C7: when `Save` succeeds and `GetIP` fails, `saveHost` returns the error of
`GetIP` itself, the only calls made are `Save` on the host record and `GetIP`,
the node is the one passed in, and `config.SaveNode` is not called. -/
theorem saveHost_getIP_fails (env : Env) (a : libmachine.API) (hh : host.Host)
    (drv : drivers.Driver) (cfg : Option config.ClusterConfig) (n : Option config.Node)
    (t : List Event) (ip : String) (e : GoError)
    (hs : a.Save (some hh) = none) (hd : hh.Driver = some drv)
    (hip : drv.GetIP = (ip, some e)) :
    ∃ tr, saveHost env (some a) (some hh) cfg n t = (.ret (n, some e), tr) ∧
      tr = t ++ [.Save a (some hh), .GetIP drv] ∧
      calls Event.isSaveNode tr = calls Event.isSaveNode t := by
  refine ⟨_, ?_, rfl, ?_⟩
  · simp [saveHost, deref, bind, Go.bind, pure, Go.pure, emit, hs, hd, hip]
  · simp [calls, Event.isSaveNode]

/-- Witness of C7: the driver has no address yet. -/
theorem saveHost_getIP_fails_witness :
    ∃ tr, saveHost sampleEnv (some okAPI)
        (some { sampleHost "docker" with Driver := some noIPDriver }) none
        (some sampleNode) [] = (.ret (some sampleNode, some (.New "IP not found")), tr) ∧
      tr = [] ++ [.Save okAPI (some { sampleHost "docker" with Driver := some noIPDriver }),
        .GetIP noIPDriver] ∧
      calls Event.isSaveNode tr = calls Event.isSaveNode [] :=
  saveHost_getIP_fails sampleEnv okAPI { sampleHost "docker" with Driver := some noIPDriver }
    noIPDriver none (some sampleNode) [] "" (.New "IP not found") rfl rfl rfl

/-- C8: when `Save` fails with `e`, `saveHost` returns `errors.Wrap(e, "save")`,
whose message is `save: ` followed by the message of `e` and whose cause is the
cause of `e`; the only call made is `Save`, so `GetIP` and `config.SaveNode` are
not called, and the node is the one passed in. -/
theorem saveHost_save_fails (env : Env) (a : libmachine.API) (h : Option host.Host)
    (cfg : Option config.ClusterConfig) (n : Option config.Node) (t : List Event)
    (e : GoError) (hs : a.Save h = some e) :
    ∃ tr, saveHost env (some a) h cfg n t = (.ret (n, some (.Wrap e "save")), tr) ∧
      (GoError.Wrap e "save").Error = "save: " ++ e.Error ∧
      (GoError.Wrap e "save").Cause = e.Cause ∧
      tr = t ++ [.Save a h] ∧
      calls Event.isGetIP tr = calls Event.isGetIP t ∧
      calls Event.isSaveNode tr = calls Event.isSaveNode t := by
  refine ⟨_, ?_, ?_, rfl, rfl, ?_, ?_⟩
  · simp [saveHost, deref, bind, Go.bind, pure, Go.pure, emit, hs]
  · simp [GoError.Error]
  · simp [calls, Event.isGetIP]
  · simp [calls, Event.isSaveNode]

/-- Witness of C8: the client cannot write the record. -/
theorem saveHost_save_fails_witness :
    ∃ tr, saveHost sampleEnv (some failAPI) (some (sampleHost "docker")) none
        (some sampleNode) [] =
        (.ret (some sampleNode, some (.Wrap (.New "disk full") "save")), tr) ∧
      (GoError.Wrap (.New "disk full") "save").Error = "save: " ++ (GoError.New "disk full").Error ∧
      (GoError.Wrap (.New "disk full") "save").Cause = (GoError.New "disk full").Cause ∧
      tr = [] ++ [.Save failAPI (some (sampleHost "docker"))] ∧
      calls Event.isGetIP tr = calls Event.isGetIP [] ∧
      calls Event.isSaveNode tr = calls Event.isSaveNode [] :=
  saveHost_save_fails sampleEnv failAPI (some (sampleHost "docker")) none (some sampleNode) []
    (.New "disk full") rfl

/-- C9: `LoadMachine` always returns, and it returns a handle exactly when client
acquisition has a nil error, host resolution has a nil error and the resolved
record is present; the handle then wraps that record and the error is nil.
Otherwise no handle is returned, with the client-acquisition error unchanged (and
no call of `LoadHost`), the lookup error unchanged, or the error `host is nil`. -/
theorem LoadMachine_spec (env : Env) (name : String) (t : List Event) :
    ∃ r tr, LoadMachine env name t = (.ret r, tr) ∧
      ((∃ m, r.1 = some m) ↔
        (env.NewAPIClient.2 = none ∧ (env.LoadHost env.NewAPIClient.1 name).2 = none ∧
          ∃ hh, (env.LoadHost env.NewAPIClient.1 name).1 = some hh)) ∧
      (∀ m, r.1 = some m → r.2 = none ∧
        m.Host = (env.LoadHost env.NewAPIClient.1 name).1 ∧ ∃ hh, m.Host = some hh) ∧
      (∀ e, env.NewAPIClient.2 = some e →
        r = (none, some e) ∧ tr = t ++ [.NewAPIClient]) ∧
      (∀ e, env.NewAPIClient.2 = none →
        (env.LoadHost env.NewAPIClient.1 name).2 = some e → r = (none, some e)) ∧
      (env.NewAPIClient.2 = none → (env.LoadHost env.NewAPIClient.1 name).2 = none →
        (env.LoadHost env.NewAPIClient.1 name).1 = none →
        r = (none, some (.New "host is nil"))) := by
  rcases hc : env.NewAPIClient with ⟨api, _ | e⟩
  · rcases hl : env.LoadHost api name with ⟨_ | hh, _ | e⟩
    · refine ⟨(none, some (.New "host is nil")), t ++ [.NewAPIClient, .LoadHost api name],
        ?_, by simp, by simp, by simp, by simp, by simp⟩
      simp [LoadMachine, bind, Go.bind, pure, Go.pure, emit, hc, hl]
    · refine ⟨(none, some e), t ++ [.NewAPIClient, .LoadHost api name],
        ?_, by simp, by simp, by simp, by simp, by simp⟩
      simp [LoadMachine, bind, Go.bind, pure, Go.pure, emit, hc, hl]
    · refine ⟨(some { Host := some hh }, none), t ++ [.NewAPIClient, .LoadHost api name],
        ?_, by simp, by simp, by simp, by simp, by simp⟩
      simp [LoadMachine, bind, Go.bind, pure, Go.pure, emit, hc, hl]
    · refine ⟨(none, some e), t ++ [.NewAPIClient, .LoadHost api name],
        ?_, by simp, by simp, by simp, by simp, by simp⟩
      simp [LoadMachine, bind, Go.bind, pure, Go.pure, emit, hc, hl]
  · refine ⟨(none, some e), t ++ [.NewAPIClient], ?_, by simp, by simp, by simp, by simp,
      by simp⟩
    simp [LoadMachine, bind, Go.bind, pure, Go.pure, emit, hc]

/-- Witness of C9: the three failure kinds and the success on `sampleEnv`. -/
theorem LoadMachine_spec_witness :
    LoadMachine sampleEnv "minikube" [] =
      (.ret (some { Host := some nameOnlyHost }, none),
        [.NewAPIClient, .LoadHost sampleEnv.NewAPIClient.1 "minikube"]) ∧
    LoadMachine sampleEnv "" [] =
      (.ret (none, some (.New "host is nil")),
        [.NewAPIClient, .LoadHost sampleEnv.NewAPIClient.1 ""]) ∧
    LoadMachine sampleEnv "other" [] =
      (.ret (none, some (.New "machine does not exist")),
        [.NewAPIClient, .LoadHost sampleEnv.NewAPIClient.1 "other"]) ∧
    LoadMachine { sampleEnv with NewAPIClient := (none, some (.New "no client")) }
        "minikube" [] = (.ret (none, some (.New "no client")), [.NewAPIClient]) ∧
    ∃ r tr, LoadMachine sampleEnv "minikube" [] = (.ret r, tr) ∧
      ((∃ m, r.1 = some m) ↔
        (sampleEnv.NewAPIClient.2 = none ∧
          (sampleEnv.LoadHost sampleEnv.NewAPIClient.1 "minikube").2 = none ∧
          ∃ hh, (sampleEnv.LoadHost sampleEnv.NewAPIClient.1 "minikube").1 = some hh)) ∧
      (∀ m, r.1 = some m → r.2 = none ∧
        m.Host = (sampleEnv.LoadHost sampleEnv.NewAPIClient.1 "minikube").1 ∧
        ∃ hh, m.Host = some hh) ∧
      (∀ e, sampleEnv.NewAPIClient.2 = some e →
        r = (none, some e) ∧ tr = [] ++ [.NewAPIClient]) ∧
      (∀ e, sampleEnv.NewAPIClient.2 = none →
        (sampleEnv.LoadHost sampleEnv.NewAPIClient.1 "minikube").2 = some e →
        r = (none, some e)) ∧
      (sampleEnv.NewAPIClient.2 = none →
        (sampleEnv.LoadHost sampleEnv.NewAPIClient.1 "minikube").2 = none →
        (sampleEnv.LoadHost sampleEnv.NewAPIClient.1 "minikube").1 = none →
        r = (none, some (.New "host is nil"))) :=
  ⟨rfl, rfl, rfl, rfl, LoadMachine_spec sampleEnv "minikube" []⟩

/-- C10: on a host whose driver, options bundle and three sub-bundles are present,
selection returns; if it returns an error `e`, `provisionDockerMachine` returns
`errors.Wrap(e, "fast detect")` and makes no call of `Provision`; if it returns a
provisioner with a nil error, `provisionDockerMachine` calls `Provision` of that
provisioner once, on the swarm, auth and engine options of the host, and returns
the result of that call. -/
theorem provisionDockerMachine_spec (env : Env) (hh : host.Host) (drv : drivers.Driver)
    (o : host.Options) (s : swarm.Options) (a : auth.Options) (e : engine.Options)
    (t : List Event) (hd : hh.Driver = some drv) (ho : hh.HostOptions = some o)
    (hs : o.SwarmOptions = some s) (ha : o.AuthOptions = some a)
    (he : o.EngineOptions = some e) :
    ∃ p err tr,
      fastDetectProvisioner env (some hh) (t ++ [.glogInfof "provisioning docker machine ..."])
        = (.ret (p, err), tr) ∧
      (∀ e1, err = some e1 → ∃ tr1,
        provisionDockerMachine env (some hh) t =
          (.ret (some (.Wrap e1 "fast detect")), tr1) ∧
        tr1 = tr ++ [.glogInfof "provisioned docker machine in %s"] ∧
        (GoError.Wrap e1 "fast detect").Error = "fast detect: " ++ e1.Error ∧
        calls Event.isProvision tr1 = calls Event.isProvision t) ∧
      (∀ pp, err = none → p = some pp → ∃ tr1,
        provisionDockerMachine env (some hh) t = (.ret (pp.Provision s a e), tr1) ∧
        tr1 = tr ++ [.Provision pp s a e, .glogInfof "provisioned docker machine in %s"] ∧
        calls Event.isProvision tr1 = calls Event.isProvision t + 1) := by
  have hsel := fastDetectProvisioner_some env hh drv
    (t ++ [.glogInfof "provisioning docker machine ..."]) hd
  have hex : ∃ p err tr, fastDetectProvisioner env (some hh)
      (t ++ [.glogInfof "provisioning docker machine ..."]) = (.ret (p, err), tr) := by
    rw [hsel]
    split_ifs
    · exact ⟨_, _, _, rfl⟩
    · exact ⟨_, _, _, rfl⟩
    · exact ⟨_, _, _, rfl⟩
  obtain ⟨p, err, tr, hrun⟩ := hex
  have hcnt := fastDetectProvisioner_calls_provision env (some hh) _ tr _ hrun
  have hcnt0 : calls Event.isProvision tr = calls Event.isProvision t := by
    rw [hcnt]
    simp [calls, Event.isProvision]
  refine ⟨p, err, tr, hrun, ?_, ?_⟩
  · intro e1 he1
    subst he1
    refine ⟨_, ?_, rfl, ?_, ?_⟩
    · rw [provisionDockerMachine_eq]
      simp [withDefer, Go.bind, hrun, emit, Go.pure]
    · simp [GoError.Error]
    · rw [calls_append, hcnt0]
      simp [calls, Event.isProvision]
  · intro pp herr hp
    subst herr hp
    refine ⟨_, ?_, rfl, ?_⟩
    · rw [provisionDockerMachine_eq]
      simp [withDefer, Go.bind, hrun, emit, Go.pure, deref, ho, hs, ha, he]
    · rw [calls_append, hcnt0]
      simp [calls, Event.isProvision]

/-- Witness of C10: the docker host is provisioned by the Ubuntu provisioner, and
failed detection on the `none` host comes back wrapped. -/
theorem provisionDockerMachine_spec_witness :
    provisionDockerMachine sampleEnv (some (sampleHost "docker")) [] =
      (.ret none,
        [.glogInfof "provisioning docker machine ...", .DriverName (sampleDriver "docker"),
          .NewUbuntuProvisioner (sampleDriver "docker"),
          .Provision (sampleEnv.NewUbuntuProvisioner (sampleDriver "docker"))
            ⟨"swarm"⟩ ⟨"auth"⟩ ⟨"engine"⟩,
          .glogInfof "provisioned docker machine in %s"]) ∧
    provisionDockerMachine sampleEnv (some (sampleHost "none")) [] =
      (.ret (some (.Wrap (.New "no matching provisioner") "fast detect")),
        [.glogInfof "provisioning docker machine ...", .DriverName (sampleDriver "none"),
          .DetectProvisioner (sampleDriver "none"),
          .glogInfof "provisioned docker machine in %s"]) ∧
    ∃ p err tr,
      fastDetectProvisioner sampleEnv (some (sampleHost "docker"))
        ([] ++ [.glogInfof "provisioning docker machine ..."]) = (.ret (p, err), tr) ∧
      (∀ e1, err = some e1 → ∃ tr1,
        provisionDockerMachine sampleEnv (some (sampleHost "docker")) [] =
          (.ret (some (.Wrap e1 "fast detect")), tr1) ∧
        tr1 = tr ++ [.glogInfof "provisioned docker machine in %s"] ∧
        (GoError.Wrap e1 "fast detect").Error = "fast detect: " ++ e1.Error ∧
        calls Event.isProvision tr1 = calls Event.isProvision []) ∧
      (∀ pp, err = none → p = some pp → ∃ tr1,
        provisionDockerMachine sampleEnv (some (sampleHost "docker")) [] =
          (.ret (pp.Provision ⟨"swarm"⟩ ⟨"auth"⟩ ⟨"engine"⟩), tr1) ∧
        tr1 = tr ++ [.Provision pp ⟨"swarm"⟩ ⟨"auth"⟩ ⟨"engine"⟩,
          .glogInfof "provisioned docker machine in %s"] ∧
        calls Event.isProvision tr1 = calls Event.isProvision [] + 1) :=
  ⟨rfl, rfl,
    provisionDockerMachine_spec sampleEnv (sampleHost "docker") (sampleDriver "docker")
      sampleOptions ⟨"swarm"⟩ ⟨"auth"⟩ ⟨"engine"⟩ [] rfl rfl rfl rfl rfl⟩

/-- C2 as stated fails: `bareOptionsHost` passes `IsValid`, its options bundle
holds no swarm, auth or engine options, and `provisionDockerMachine` panics on it
after selection has succeeded. -/
theorem IsValid_not_sufficient_for_provision :
    Machine.IsValid (some { Host := some bareOptionsHost }) [] = (.ret true, []) ∧
    bareOptionsHost.HostOptions =
      some { SwarmOptions := none, AuthOptions := none, EngineOptions := none } ∧
    fastDetectProvisioner sampleEnv (some bareOptionsHost) [] =
      (.ret (some (sampleEnv.NewUbuntuProvisioner (sampleDriver "docker")), none),
        [.DriverName (sampleDriver "docker"),
          .NewUbuntuProvisioner (sampleDriver "docker")]) ∧
    provisionDockerMachine sampleEnv (some bareOptionsHost) [] =
      (.panicked,
        [.glogInfof "provisioning docker machine ...", .DriverName (sampleDriver "docker"),
          .NewUbuntuProvisioner (sampleDriver "docker"),
          .glogInfof "provisioned docker machine in %s"]) :=
  ⟨rfl, rfl, rfl, rfl⟩

/-- C2, amended: on a handle for which `IsValid` returns true, the host record,
its driver and its options bundle are present, so selection returns without a
panic; and `provisionDockerMachine` returns without a panic whenever the swarm,
auth and engine options, which `IsValid` does not check, are present too and
detection does not answer a nil provisioner with a nil error. -/
theorem IsValid_guards_driver_and_options (env : Env) (h : Option Machine)
    (t u : List Event) (hv : Machine.IsValid h t = (.ret true, t)) :
    ∃ m hh drv o, h = some m ∧ m.Host = some hh ∧ hh.Driver = some drv ∧
      hh.HostOptions = some o ∧
      (∃ r tr, fastDetectProvisioner env m.Host u = (.ret r, tr)) ∧
      (o.SwarmOptions.isSome = true → o.AuthOptions.isSome = true →
        o.EngineOptions.isSome = true → env.DetectProvisioner drv ≠ (none, none) →
        ∃ r tr, provisionDockerMachine env m.Host u = (.ret r, tr)) := by
  obtain ⟨b, hb, hiff⟩ := IsValid_run h t
  rw [hv] at hb
  have hbt : b = true := by
    injection hb with h1 _
    injection h1 with h2
    exact h2.symm
  obtain ⟨m, hh, drv, o, r, hm, hhost, _, hd, ho, _⟩ := hiff.mp hbt
  have hsel : ∀ v, ∃ p err tr, fastDetectProvisioner env (some hh) v = (.ret (p, err), tr) ∧
      ((p, err) = (none, none) → env.DetectProvisioner drv = (none, none)) := by
    intro v
    rw [fastDetectProvisioner_some env hh drv v hd]
    split_ifs
    · exact ⟨_, _, _, rfl, by simp⟩
    · exact ⟨(env.DetectProvisioner drv).1, (env.DetectProvisioner drv).2, _, rfl,
        fun hx => hx⟩
    · exact ⟨_, _, _, rfl, by simp⟩
  refine ⟨m, hh, drv, o, hm, hhost, hd, ho, ?_, ?_⟩
  · rw [hhost]
    obtain ⟨p, err, tr, hrun, _⟩ := hsel u
    exact ⟨_, _, hrun⟩
  · intro hs ha he hnil
    rw [hhost]
    obtain ⟨s, hs⟩ := Option.isSome_iff_exists.mp hs
    obtain ⟨a, ha⟩ := Option.isSome_iff_exists.mp ha
    obtain ⟨e, he⟩ := Option.isSome_iff_exists.mp he
    obtain ⟨p, err, tr, hrun, hpe⟩ := hsel (u ++ [.glogInfof "provisioning docker machine ..."])
    rw [provisionDockerMachine_eq]
    rcases err with _ | e1
    · rcases p with _ | pp
      · exact absurd (hpe rfl) hnil
      · refine ⟨pp.Provision s a e,
          tr ++ [.Provision pp s a e, .glogInfof "provisioned docker machine in %s"], ?_⟩
        simp [withDefer, Go.bind, hrun, emit, Go.pure, deref, ho, hs, ha, he]
    · refine ⟨some (.Wrap e1 "fast detect"),
        tr ++ [.glogInfof "provisioned docker machine in %s"], ?_⟩
      simp [withDefer, Go.bind, hrun, emit, Go.pure]

/-- Witness of the amended C2 on the fully populated docker host. -/
theorem IsValid_guards_driver_and_options_witness :
    Machine.IsValid (some { Host := some (sampleHost "docker") }) [] = (.ret true, []) ∧
    ∃ m hh drv o, some ({ Host := some (sampleHost "docker") } : Machine) = some m ∧
      m.Host = some hh ∧ hh.Driver = some drv ∧ hh.HostOptions = some o ∧
      (∃ r tr, fastDetectProvisioner sampleEnv m.Host [] = (.ret r, tr)) ∧
      (o.SwarmOptions.isSome = true → o.AuthOptions.isSome = true →
        o.EngineOptions.isSome = true → sampleEnv.DetectProvisioner drv ≠ (none, none) →
        ∃ r tr, provisionDockerMachine sampleEnv m.Host [] = (.ret r, tr)) :=
  ⟨rfl, IsValid_guards_driver_and_options sampleEnv
    (some { Host := some (sampleHost "docker") }) [] [] rfl⟩

end machine
